import Mathlib

/-!
Verification of the azureml-examples repository's natural-language
specification against a shallow embedding of its code.

The repository consists of tutorial notebooks.  The fragments with local
logic, embedded below, are:
  * the scoring script `score.py` (function `run`) and the MLflow
    `ModelWrapper` class (`load_context` / `predict`) from
    `automl-regression-task-hardware-performance.ipynb`;
  * the compute-provisioning try/except cell, the training script
    `main.py`'s argparse setup, the command-job construction, the
    latest-model-version selection and blue deployment, and the
    `sample-request.json` payload, all from the "AzureML in a Day"
    notebook;
  * the bankmarketing request construction from the AutoML
    classification notebook.

Modelling conventions: Python floats are modelled as rationals (the code
under scrutiny only compares, maximises and serialises them); a Python
exception is a `PyExc` value and fallible calls return `Except PyExc`;
remote SDK calls (`ml_client.compute.get`, `models.get`, ...) are
parameters of the embedding, since their behaviour lives outside the
repository.
-/

namespace AzuremlExamples

/-- A Python exception: either the built-in `RuntimeError` (which the
scoring script's `run` catches) or any other exception, identified by its
class name and message. -/
inductive PyExc where
  | runtimeError (msg : String)
  | other (name msg : String)
deriving DecidableEq, Repr

/-! ### numpy reductions used by the scoring code

`predictions.max(axis=1)` and `predictions.argmax(axis=1)` reduce each row
of the probability matrix.  `numpy.max` of a row is its greatest element;
`numpy.argmax` is the index of the first occurrence of that greatest
element.  (numpy raises on an empty reduction axis; the embeddings below
return junk values on `[]` and are only used under non-emptiness
hypotheses.) -/

/-- numpy `max` over one row: the greatest element (`0` on the empty row,
where numpy would raise instead). -/
def npMax : List ℚ → ℚ
  | [] => 0
  | x :: xs => xs.foldl max x

/-- numpy `argmax` over one row: the index of the first occurrence of the
greatest element (`0` on the empty row, where numpy would raise instead). -/
def npArgmax (l : List ℚ) : Nat :=
  l.indexOf (npMax l)

theorem foldl_max_le_iff {α : Type} [LinearOrder α] (xs : List α) (a c : α) :
    xs.foldl max a ≤ c ↔ a ≤ c ∧ ∀ b ∈ xs, b ≤ c := by
  induction xs generalizing a with
  | nil => simp
  | cons x xs ih =>
      simp only [List.foldl_cons, ih, max_le_iff, List.mem_cons]
      constructor
      · rintro ⟨⟨h1, h2⟩, h3⟩
        exact ⟨h1, fun b hb => hb.elim (fun h => h ▸ h2) (h3 b)⟩
      · rintro ⟨h1, h2⟩
        exact ⟨⟨h1, h2 x (Or.inl rfl)⟩, fun b hb => h2 b (Or.inr hb)⟩

theorem foldl_max_mem {α : Type} [LinearOrder α] (xs : List α) (a : α) :
    xs.foldl max a = a ∨ xs.foldl max a ∈ xs := by
  induction xs generalizing a with
  | nil => exact Or.inl rfl
  | cons x xs ih =>
      simp only [List.foldl_cons, List.mem_cons]
      rcases ih (max a x) with h | h
      · rcases max_choice a x with hm | hm
        · exact Or.inl (h.trans hm)
        · exact Or.inr (Or.inl (h.trans hm))
      · exact Or.inr (Or.inr h)

theorem npMax_mem {l : List ℚ} (h : l ≠ []) : npMax l ∈ l := by
  match l with
  | x :: xs =>
      show xs.foldl max x ∈ x :: xs
      rcases foldl_max_mem xs x with h | h
      · rw [h]; exact List.mem_cons_self x xs
      · exact List.mem_cons_of_mem x h

theorem le_npMax {l : List ℚ} {a : ℚ} (h : a ∈ l) : a ≤ npMax l := by
  match l with
  | x :: xs =>
      have : npMax (x :: xs) ≤ npMax (x :: xs) := le_refl _
      rw [npMax] at this ⊢
      rcases (foldl_max_le_iff xs x _).1 this with ⟨h1, h2⟩
      rcases List.mem_cons.1 h with rfl | ha
      · exact h1
      · exact h2 a ha

theorem npArgmax_lt_length {l : List ℚ} (h : l ≠ []) :
    npArgmax l < l.length :=
  List.indexOf_lt_length.2 (npMax_mem h)

theorem get_npArgmax {l : List ℚ} (h : npArgmax l < l.length) :
    l.get ⟨npArgmax l, h⟩ = npMax l :=
  List.indexOf_get h

theorem indexOf_le_of_get_eq {α : Type} [DecidableEq α] :
    ∀ (l : List α) (a : α) (j : Nat) (hj : j < l.length),
      l.get ⟨j, hj⟩ = a → l.indexOf a ≤ j
  | x :: xs, a, 0, _, h => by
      simp only [List.get] at h
      simp [List.indexOf_cons_eq xs h]
  | x :: xs, a, j + 1, hj, h => by
      by_cases hx : x = a
      · simp [List.indexOf_cons_eq xs hx]
      · rw [List.indexOf_cons_ne xs hx]
        exact Nat.succ_le_succ
          (indexOf_le_of_get_eq xs a j (Nat.lt_of_succ_lt_succ hj) h)

theorem get_lt_of_lt_npArgmax {l : List ℚ} {j : Nat}
    (hj : j < npArgmax l)
    (hjl : j < l.length) : l.get ⟨j, hjl⟩ < npMax l := by
  have hne : l.get ⟨j, hjl⟩ ≠ npMax l := by
    intro hEq
    have : l.indexOf (npMax l) ≤ j := indexOf_le_of_get_eq l _ j hjl hEq
    exact absurd hj (by simpa [npArgmax] using Nat.not_lt.2 this)
  exact lt_of_le_of_ne (le_npMax (l.get_mem _ _)) hne

theorem npMax_nonneg_le_one {l : List ℚ} (h : l ≠ [])
    (hb : ∀ x ∈ l, 0 ≤ x ∧ x ≤ 1) : 0 ≤ npMax l ∧ npMax l ≤ 1 :=
  hb (npMax l) (npMax_mem h)

/-! ### pandas DataFrame and the JSON documents built by the scoring code -/

/-- A pandas `DataFrame`, modelled as its list of named columns, in order.
`pd.DataFrame(data=d)` for a dict `d` of equally long lists produces the
frame whose columns are the dict's entries in insertion order. -/
structure DataFrame where
  cols : List (String × List ℚ)
deriving DecidableEq, Repr

/-- The column labels of a DataFrame, in order. -/
def DataFrame.columns (df : DataFrame) : List String :=
  df.cols.map Prod.fst

/-- The number of rows of a DataFrame (the common length of its columns;
`0` for a frame with no columns). -/
def DataFrame.nrows (df : DataFrame) : Nat :=
  match df.cols with
  | [] => 0
  | (_, c) :: _ => c.length

/-- A JSON document.  `json.dumps` serialises such a document to a string;
the embedding keeps the document itself (the serialisation is an injective
image of it, and parsing the string recovers it). -/
inductive Json where
  | num (q : ℚ)
  | str (s : String)
  | arr (elems : List Json)
  | obj (members : List (String × Json))
deriving Repr

/-- The top-level keys of a JSON document (empty for non-objects). -/
def Json.keys : Json → List String
  | .obj members => members.map Prod.fst
  | _ => []

/-- Lookup of a key in a JSON object (first occurrence). -/
def Json.find (j : Json) (k : String) : Option Json :=
  match j with
  | .obj members => (members.find? (fun m => m.1 == k)).map Prod.snd
  | _ => none

/-! ### The model-output adaptation code

From `automl-regression-task-hardware-performance.ipynb`: the scoring
script `score.py` (globals `MODEL` / `init` / `run`) and the MLflow
`ModelWrapper` (`load_context` / `predict`).  The XGBoost classifier is
modelled by its `predict_proba` method: a function from the input batch
(a tabular batch, one feature row per example) to the probability matrix
(one row of class probabilities per example), or an exception. -/

/-- The wrapped XGBoost classifier, modelled by its `predict_proba`
method. -/
structure XGBClassifier where
  predict_proba : List (List ℚ) → Except PyExc (List (List ℚ))

/-- The MLflow `PythonModelContext`: exposes resolved artifact paths. -/
structure PythonModelContext where
  artifacts : String → Option String

/-- The MLflow `ModelWrapper` instance state: the XGBoost model stored in
`self.model` by `load_context`. -/
structure ModelWrapper where
  model : XGBClassifier

/-- `ModelWrapper.predict(self, context, data)`: computes
`predictions = self.model.predict_proba(data)`,
`classes = predictions.argmax(axis=1)`,
`confidence = predictions.max(axis=1)` and returns
`pd.DataFrame(data={"class": classes.tolist(), "confidence":
confidence.tolist()})`.  The embedding threads the instance state
explicitly: the method returns its result (or the propagated exception)
together with the post-call instance state (the method body assigns no
attribute, so the state passes through unchanged). -/
def ModelWrapper.predict (self : ModelWrapper) (context : PythonModelContext)
    (data : List (List ℚ)) : Except PyExc DataFrame × ModelWrapper :=
  match self.model.predict_proba data with
  | .error e => (.error e, self)
  | .ok predictions =>
      let classes := predictions.map npArgmax
      let confidence := predictions.map npMax
      (.ok ⟨[("class", classes.map (fun n : ℕ => (n : ℚ))),
             ("confidence", confidence)]⟩, self)

/-- The result of `score.py`'s `run`: a string that is either the
`json.dumps` serialisation of a JSON document (success path) or the plain
formatted error text (the `except RuntimeError` path).  The serialised
document is kept as a `Json` value. -/
inductive ScoreResult where
  | jsonOf (j : Json)
  | text (s : String)

/-- The `str(data)` rendering used in the except-branch message of `run`,
modelled by the standard textual rendering of the batch. -/
def dataStr (data : List (List ℚ)) : String :=
  toString data

/-- `score.py`'s `run(data)`: inside a `try`, computes
`predictions = MODEL.predict_proba(data)`, the per-row argmax `classes`
and per-row max `confidence`, and returns
`json.dumps({"class": classes.tolist(), "confidence":
confidence.tolist()})`; an `except RuntimeError as E` clause logs and
returns the plain string `f'Input {str(data)}. Exception was: {str(E)}'`.
Any other exception propagates.  The global `MODEL` (set by `init`) is a
parameter of the embedding. -/
def run (MODEL : XGBClassifier) (data : List (List ℚ)) :
    Except PyExc ScoreResult :=
  match MODEL.predict_proba data with
  | .ok predictions =>
      let classes := predictions.map npArgmax
      let confidence := predictions.map npMax
      .ok (.jsonOf (.obj
        [("class", .arr (classes.map (fun n : ℕ => Json.num (n : ℚ)))),
         ("confidence", .arr (confidence.map .num))]))
  | .error (.runtimeError msg) =>
      .ok (.text ("Input " ++ dataStr data ++ ". Exception was: " ++ msg))
  | .error e => .error e

/-! ### Compute provisioning ("AzureML in a Day" notebook, cell
`cpu_compute_target`)

The cell tries `ml_client.compute.get(cpu_compute_target)`; on success it
reuses the retrieved cluster, and on any exception (`except Exception`) it
builds an `AmlCompute` configuration and submits it through
`ml_client.compute.begin_create_or_update`.  The two remote calls are
parameters of the embedding; the result records the final `cpu_cluster`
value together with the list of configurations submitted for creation. -/

/-- An `AmlCompute` configuration object. -/
structure AmlCompute where
  name : String
  type : String
  size : String
  min_instances : Nat
  max_instances : Nat
  idle_time_before_scale_down : Nat
  tier : String
deriving DecidableEq, Repr

/-- Name assigned to the compute cluster. -/
def cpu_compute_target : String := "cpu-cluster"

/-- The `AmlCompute(...)` configuration built in the except-branch of the
provisioning cell. -/
def newCpuCluster : AmlCompute :=
  { name := cpu_compute_target
    type := "amlcompute"
    size := "STANDARD_DS3_V2"
    min_instances := 0
    max_instances := 4
    idle_time_before_scale_down := 180
    tier := "Dedicated" }

/-- The provisioning try/except cell.  `get` models
`ml_client.compute.get` and `begin_create_or_update` models
`ml_client.compute.begin_create_or_update` (whose result the cell assigns
back to `cpu_cluster`).  Returns the final `cpu_cluster` and the list of
configurations passed to `begin_create_or_update`. -/
def provisionCompute (get : String → Except PyExc AmlCompute)
    (begin_create_or_update : AmlCompute → AmlCompute) :
    AmlCompute × List AmlCompute :=
  match get cpu_compute_target with
  | .ok cpu_cluster => (cpu_cluster, [])
  | .error _ =>
      let cpu_cluster := newCpuCluster
      (begin_create_or_update cpu_cluster, [cpu_cluster])

/-! ### The training script `main.py`'s command-line interface

`main.py` (written by the "AzureML in a Day" notebook) builds an
`argparse.ArgumentParser` with exactly these `add_argument` calls:
  * `--data`, `type=str`;
  * `--test_train_ratio`, `type=float`, `required=False`, `default=0.25`;
  * `--n_estimators`, `type=int`, `required=False`, `default=100`;
  * `--learning_rate`, `type=float`, `required=False`, `default=0.1`;
  * `--registered_model_name`, `type=str`.
An argparse option without `required=True` is optional; without an
explicit default its value is `None`.  The embedding models a command
line as a list of (flag, raw value) pairs, rejects unrecognized flags as
argparse does, applies the last occurrence of a repeated flag, and
converts raw values with the declared type (a conversion failure is a
parse error). -/

/-- The declared type of an argparse option. -/
inductive ArgType where
  | str
  | float
  | int
deriving DecidableEq, Repr

/-- A parsed argument value; `vnone` is Python's `None` (the default of an
option declared without a default). -/
inductive ArgValue where
  | vstr (s : String)
  | vfloat (q : ℚ)
  | vint (n : Int)
  | vnone
deriving DecidableEq, Repr

/-- One `add_argument` declaration. -/
structure ArgSpec where
  flag : String
  type : ArgType
  required : Bool
  default : ArgValue
deriving DecidableEq, Repr

/-- `parser.add_argument("--data", type=str, help="path to input data")`. -/
def dataSpec : ArgSpec :=
  { flag := "--data", type := .str, required := false, default := .vnone }

/-- `parser.add_argument("--test_train_ratio", type=float, required=False,
default=0.25)`. -/
def testTrainRatioSpec : ArgSpec :=
  { flag := "--test_train_ratio", type := .float, required := false
    default := .vfloat (1/4) }

/-- `parser.add_argument("--n_estimators", required=False, default=100,
type=int)`. -/
def nEstimatorsSpec : ArgSpec :=
  { flag := "--n_estimators", type := .int, required := false
    default := .vint 100 }

/-- `parser.add_argument("--learning_rate", required=False, default=0.1,
type=float)`. -/
def learningRateSpec : ArgSpec :=
  { flag := "--learning_rate", type := .float, required := false
    default := .vfloat (1/10) }

/-- `parser.add_argument("--registered_model_name", type=str,
help="model name")`. -/
def registeredModelNameSpec : ArgSpec :=
  { flag := "--registered_model_name", type := .str, required := false
    default := .vnone }

/-- The five options `main.py` declares, in declaration order. -/
def mainArgSpecs : List ArgSpec :=
  [dataSpec, testTrainRatioSpec, nEstimatorsSpec, learningRateSpec,
   registeredModelNameSpec]

/-- The value of a digit string, if every character is a digit and the
string is non-empty. -/
def digitsVal (cs : List Char) : Option Nat :=
  if cs ≠ [] ∧ cs.all Char.isDigit then
    some (cs.foldl (fun a c => 10 * a + (c.toNat - Char.toNat '0')) 0)
  else
    none

/-- Python's `float()` conversion, on the decimal fragment the scripts
use: an optional sign, digits, and an optional fractional part. -/
def pyFloat (s : String) : Option ℚ :=
  let (sgn, cs) : ℚ × List Char :=
    match s.toList with
    | '-' :: rest => (-1, rest)
    | cs => (1, cs)
  match cs.splitOn '.' with
  | [ip] => (digitsVal ip).map (fun n => sgn * n)
  | [ip, fp] => do
      let i ← digitsVal ip
      let f ← digitsVal fp
      pure (sgn * ((i : ℚ) + (f : ℚ) / (10 : ℚ) ^ fp.length))
  | _ => none

/-- Python's `int()` conversion on a decimal string. -/
def pyInt (s : String) : Option Int :=
  match s.toList with
  | '-' :: rest => (digitsVal rest).map (fun n => -(n : Int))
  | cs => (digitsVal cs).map (fun n => (n : Int))

/-- Conversion of a raw command-line value by an option's declared type. -/
def convertArg (t : ArgType) (raw : String) : Option ArgValue :=
  match t with
  | .str => some (.vstr raw)
  | .float => (pyFloat raw).map .vfloat
  | .int => (pyInt raw).map .vint

/-- Resolution of one option against the supplied command line: the last
supplied occurrence wins and is converted; an absent option takes its
default (argparse would reject an absent `required` option). -/
def resolveArg (argv : List (String × String)) (spec : ArgSpec) :
    Except String ArgValue :=
  match List.lookup spec.flag argv.reverse with
  | none =>
      if spec.required then
        .error ("the following arguments are required: " ++ spec.flag)
      else
        .ok spec.default
  | some raw =>
      match convertArg spec.type raw with
      | some v => .ok v
      | none => .error ("argument " ++ spec.flag ++ ": invalid value")

/-- The parsed `args` namespace of `main.py`. -/
structure Args where
  data : ArgValue
  test_train_ratio : ArgValue
  n_estimators : ArgValue
  learning_rate : ArgValue
  registered_model_name : ArgValue
deriving DecidableEq, Repr

/-- `parser.parse_args()` for `main.py`'s parser: rejects any flag not
declared by an `add_argument` call, then resolves each declared option. -/
def parse_args (argv : List (String × String)) : Except String Args :=
  if argv.all (fun p => mainArgSpecs.any (fun s => s.flag == p.1)) then do
    let data ← resolveArg argv dataSpec
    let test_train_ratio ← resolveArg argv testTrainRatioSpec
    let n_estimators ← resolveArg argv nEstimatorsSpec
    let learning_rate ← resolveArg argv learningRateSpec
    let registered_model_name ← resolveArg argv registeredModelNameSpec
    .ok ⟨data, test_train_ratio, n_estimators, learning_rate,
         registered_model_name⟩
  else
    .error "unrecognized arguments"

/-! ### The command job ("AzureML in a Day" notebook, cell
`registered_model_name`)

The notebook submits `command(inputs=dict(data=Input(type="uri_file",
path=<UCI credit dataset URL>), test_train_ratio=0.2, learning_rate=0.25,
registered_model_name="credit_defaults_model"), command="python main.py
--data $[[inputs.data]] --test_train_ratio $[[inputs.test_train_ratio]]
--learning_rate $[[inputs.learning_rate]] --registered_model_name
$[[inputs.registered_model_name]]", ...)` (the placeholder delimiters are
double braces in the source).  The embedding below is that command line
with each placeholder substituted by the corresponding input value, split
into whitespace-separated tokens. -/

/-- The model name registered by the job. -/
def registered_model_name : String := "credit_defaults_model"

/-- The `path` of the job's `data` input. -/
def creditDataUrl : String :=
  "https://archive.ics.uci.edu/ml/machine-learning-databases/00350/default%20of%20credit%20card%20clients.xls"

/-- The job's command line after substituting the four inputs
(`data`, `test_train_ratio=0.2`, `learning_rate=0.25`,
`registered_model_name`), as its token list. -/
def jobCommandArgv : List String :=
  ["python", "main.py",
   "--data", creditDataUrl,
   "--test_train_ratio", "0.2",
   "--learning_rate", "0.25",
   "--registered_model_name", registered_model_name]

/-- Pairing of a flat `--flag value` token sequence into (flag, value)
pairs, as the shell hands them to argparse. -/
def toFlagPairs : List String → List (String × String)
  | f :: v :: rest => (f, v) :: toFlagPairs rest
  | _ => []

/-! ### Latest-model-version selection and the blue deployment
("AzureML in a Day" notebook, cells `latest_model_version` and
`blue_deployment`) -/

/-- A model registry entry as returned by `ml_client.models.list`:
a name and a version string. -/
structure MlModel where
  name : String
  version : String
deriving DecidableEq, Repr

/-- `latest_model_version = max([int(m.version) for m in
ml_client.models.list(name=registered_model_name)])`.  The list returned
by the remote call is the parameter; `int()` on a non-numeric version
raises `ValueError`, and `max()` of an empty sequence raises
`ValueError`. -/
def latest_model_version (models : List MlModel) : Except PyExc Int :=
  match models.mapM (fun m =>
      match pyInt m.version with
      | some v => Except.ok v
      | none => Except.error (PyExc.other "ValueError" m.version)) with
  | .error e => .error e
  | .ok [] => .error (.other "ValueError" "max() arg is an empty sequence")
  | .ok (v :: vs) => .ok (vs.foldl max v)

/-- Modelled from the spec: `ml_client.models.get(name=..., version=...)`
is the remote registry lookup, absent from the repository; per the spec's
data model a registered model is "a named, versioned artifact", and the
lookup returns the registered model carrying the requested name and
version (searching the same collection `ml_client.models.list`
returned). -/
def models_get (models : List MlModel) (name : String) (version : Int) :
    Except PyExc MlModel :=
  match models.find? (fun m => m.name == name && pyInt m.version == some version) with
  | some m => .ok m
  | none => .error (.other "ResourceNotFoundError" name)

/-- The two deployment cells combined: compute `latest_model_version`
from the listed models, then fetch
`model = ml_client.models.get(name=registered_model_name,
version=latest_model_version)`. -/
def pickDeploymentModel (models : List MlModel) : Except PyExc MlModel := do
  let latest ← latest_model_version models
  models_get models registered_model_name latest

/-- A `ManagedOnlineDeployment` configuration object. -/
structure ManagedOnlineDeployment where
  name : String
  endpoint_name : String
  model : MlModel
  instance_type : String
  instance_count : Nat
deriving DecidableEq, Repr

/-- The `blue_deployment = ManagedOnlineDeployment(name="blue",
endpoint_name=online_endpoint_name, model=model,
instance_type="Standard_DS3_v2", instance_count=1)` construction,
parameterised by the endpoint name (random per session) and the fetched
model. -/
def blue_deployment (online_endpoint_name : String) (model : MlModel) :
    ManagedOnlineDeployment :=
  { name := "blue"
    endpoint_name := online_endpoint_name
    model := model
    instance_type := "Standard_DS3_v2"
    instance_count := 1 }

/-! ### Invocation payloads

The "AzureML in a Day" notebook writes the literal file
`sample-request.json`; its JSON text is translated below into a `Json`
document.  The AutoML classification notebook builds the bankmarketing
request by string concatenation around `test_data_json` (the
records-oriented serialisation of the test frame); both the exact string
template and the JSON document it denotes are embedded, and a JSON parser
links them on a concrete instance. -/

/-- The literal contents of `deploy/sample-request.json`. -/
def sampleRequest : Json :=
  .obj [("input_data", .obj
    [("columns", .arr
      [.num 0, .num 1, .num 2, .num 3, .num 4, .num 5, .num 6, .num 7,
       .num 8, .num 9, .num 10, .num 11, .num 12, .num 13, .num 14,
       .num 15, .num 16, .num 17, .num 18, .num 19, .num 20, .num 21,
       .num 22]),
     ("index", .arr [.num 0, .num 1]),
     ("data", .arr
      [.arr [.num 20000, .num 2, .num 2, .num 1, .num 24, .num 2, .num 2,
             .num (-1), .num (-1), .num (-2), .num (-2), .num 3913,
             .num 3102, .num 689, .num 0, .num 0, .num 0, .num 0,
             .num 689, .num 0, .num 0, .num 0, .num 0],
       .arr [.num 10, .num 9, .num 8, .num 7, .num 6, .num 5, .num 4,
             .num 3, .num 2, .num 1, .num 10, .num 9, .num 8, .num 7,
             .num 6, .num 5, .num 4, .num 3, .num 2, .num 1, .num 10,
             .num 9, .num 8]])])]

/-- The bankmarketing request string: the notebook's concatenation of the
two single-quoted literals (whose backslash-newlines are line
continuations, leaving the run of spaces) around `test_data_json`. -/
def bankRequestString (test_data_json : String) : String :=
  "\x7b           \"Inputs\": \x7b\"data\": " ++ test_data_json ++
    "\x7d,           \"GlobalParameters\": \x7b \"method\": \"predict\" \x7d         \x7d"

/-- The JSON document the bankmarketing request string denotes when
`test_data_json` serialises the document `test_data`. -/
def bankRequest (test_data : Json) : Json :=
  .obj [("Inputs", .obj [("data", test_data)]),
        ("GlobalParameters", .obj [("method", .str "predict")])]

/-! ### A JSON parser, used to check that the bankmarketing string
template really denotes the `bankRequest` document -/

/-- Whitespace skipping. -/
def skipWs : List Char → List Char
  | c :: cs =>
      if c = ' ' ∨ c = '\n' ∨ c = '\t' ∨ c = '\r' then skipWs cs
      else c :: cs
  | [] => []

/-- Parsing of a string body after an opening quote (no escape support;
none of the embedded payloads needs it). -/
def parseStrChars (cs : List Char) : Option (String × List Char) :=
  let body := cs.takeWhile (· ≠ '"')
  match cs.dropWhile (· ≠ '"') with
  | '"' :: rest => some (String.mk body, rest)
  | _ => none

/-- Parsing of a JSON number (sign, digits, optional fraction). -/
def parseNum (cs : List Char) : Option (ℚ × List Char) :=
  let body := cs.takeWhile (fun c => c = '-' ∨ c = '.' ∨ c.isDigit)
  match pyFloat (String.mk body) with
  | some q => some (q, cs.drop body.length)
  | none => none

mutual

/-- Parsing of one JSON value; `fuel` bounds the nesting depth. -/
def parseVal : Nat → List Char → Option (Json × List Char)
  | 0, _ => none
  | fuel + 1, cs =>
      match skipWs cs with
      | '\x7b' :: rest =>
          match skipWs rest with
          | '\x7d' :: rest1 => some (.obj [], rest1)
          | rest1 => (parseMembers fuel rest1).map
              (fun r => (.obj r.1, r.2))
      | '[' :: rest =>
          match skipWs rest with
          | ']' :: rest1 => some (.arr [], rest1)
          | rest1 => (parseElems fuel rest1).map
              (fun r => (.arr r.1, r.2))
      | '"' :: rest =>
          (parseStrChars rest).map (fun r => (.str r.1, r.2))
      | c :: rest =>
          if c = '-' ∨ c.isDigit then
            (parseNum (c :: rest)).map (fun r => (.num r.1, r.2))
          else none
      | [] => none
termination_by structural fuel => fuel

/-- Parsing of a non-empty member list of a JSON object, up to and
including the closing brace. -/
def parseMembers : Nat → List Char →
    Option (List (String × Json) × List Char)
  | 0, _ => none
  | fuel + 1, cs =>
      match skipWs cs with
      | '"' :: rest =>
          match parseStrChars rest with
          | none => none
          | some (key, rest1) =>
              match skipWs rest1 with
              | ':' :: rest2 =>
                  match parseVal fuel rest2 with
                  | none => none
                  | some (v, rest3) =>
                      match skipWs rest3 with
                      | ',' :: rest4 =>
                          (parseMembers fuel rest4).map
                            (fun r => ((key, v) :: r.1, r.2))
                      | '\x7d' :: rest4 => some ([(key, v)], rest4)
                      | _ => none
              | _ => none
      | _ => none
termination_by structural fuel => fuel

/-- Parsing of a non-empty element list of a JSON array, up to and
including the closing bracket. -/
def parseElems : Nat → List Char → Option (List Json × List Char)
  | 0, _ => none
  | fuel + 1, cs =>
      match parseVal fuel cs with
      | none => none
      | some (v, rest) =>
          match skipWs rest with
          | ',' :: rest1 =>
              (parseElems fuel rest1).map (fun r => (v :: r.1, r.2))
          | ']' :: rest1 => some ([v], rest1)
          | _ => none
termination_by structural fuel => fuel

end

/-- Parsing of a complete JSON document: one value followed only by
whitespace. -/
def jsonParse (s : String) : Option Json :=
  match parseVal (s.length + 1) s.toList with
  | some (j, rest) => if skipWs rest = [] then some j else none
  | none => none

/-! ### Concrete fixtures used by the witness theorems -/

/-- A context with no artifacts (ignored by `predict`). -/
def testContext : PythonModelContext := ⟨fun _ => none⟩

/-- A two-row input batch. -/
def batch1 : List (List ℚ) := [[63, 1], [10, 2]]

/-- A two-row probability matrix. -/
def probs1 : List (List ℚ) := [[1/4, 3/4], [2/3, 1/3]]

/-- A classifier whose `predict_proba` always succeeds with `probs1`. -/
def okModel : XGBClassifier := ⟨fun _ => .ok probs1⟩

/-- A wrapper loaded with `okModel`. -/
def okWrapper : ModelWrapper := ⟨okModel⟩

/-- A classifier whose `predict_proba` raises `RuntimeError("boom")`. -/
def rtErrModel : XGBClassifier := ⟨fun _ => .error (.runtimeError "boom")⟩

/-- A classifier whose `predict_proba` raises `KeyError("age")`. -/
def keyErrModel : XGBClassifier := ⟨fun _ => .error (.other "KeyError" "age")⟩

/-! ### Claims -/

/-- C1: on every batch where the wrapped classifier's `predict_proba`
returns a probability matrix (with non-empty rows, as a probability matrix
has), `ModelWrapper.predict` and the scoring script's `run` both emit, per
row, a `class` equal to the first index attaining that row's maximum
probability and a `confidence` equal to that maximum, and the maximum lies
in [0,1] whenever every probability of the row does. -/
theorem predict_and_run_select_argmax_and_max
    (w : ModelWrapper) (context : PythonModelContext)
    (MODEL : XGBClassifier) (data predictions : List (List ℚ))
    (hw : w.model.predict_proba data = .ok predictions)
    (hM : MODEL.predict_proba data = .ok predictions)
    (hne : ∀ row ∈ predictions, row ≠ []) :
    (w.predict context data).1 = .ok
      ⟨[("class", (predictions.map npArgmax).map (fun n : ℕ => (n : ℚ))),
        ("confidence", predictions.map npMax)]⟩ ∧
    run MODEL data = .ok (.jsonOf (.obj
      [("class", .arr ((predictions.map npArgmax).map
          (fun n : ℕ => Json.num (n : ℚ)))),
       ("confidence", .arr ((predictions.map npMax).map .num))])) ∧
    ∀ row ∈ predictions,
      ∃ h : npArgmax row < row.length,
        row.get ⟨npArgmax row, h⟩ = npMax row ∧
        (∀ j (hj : j < row.length), row.get ⟨j, hj⟩ ≤ npMax row) ∧
        (∀ j (hj : j < npArgmax row),
            row.get ⟨j, Nat.lt_trans hj h⟩ < npMax row) ∧
        ((∀ x ∈ row, 0 ≤ x ∧ x ≤ 1) → 0 ≤ npMax row ∧ npMax row ≤ 1) := by
  refine ⟨by simp [ModelWrapper.predict, hw], by simp [run, hM], ?_⟩
  intro row hrow
  have hner := hne row hrow
  refine ⟨npArgmax_lt_length hner, get_npArgmax _, ?_, ?_, ?_⟩
  · intro j hj
    exact le_npMax (row.get_mem _ _)
  · intro j hj
    exact get_lt_of_lt_npArgmax hj _
  · exact npMax_nonneg_le_one hner

/-- Witness for C1 at the concrete fixture. -/
theorem predict_and_run_select_argmax_and_max_witness :
    (okWrapper.model.predict_proba batch1 = .ok probs1) ∧
    (okModel.predict_proba batch1 = .ok probs1) ∧
    (∀ row ∈ probs1, row ≠ []) ∧
    ((okWrapper.predict testContext batch1).1 = .ok
      ⟨[("class", (probs1.map npArgmax).map (fun n : ℕ => (n : ℚ))),
        ("confidence", probs1.map npMax)]⟩ ∧
    run okModel batch1 = .ok (.jsonOf (.obj
      [("class", .arr ((probs1.map npArgmax).map
          (fun n : ℕ => Json.num (n : ℚ)))),
       ("confidence", .arr ((probs1.map npMax).map .num))])) ∧
    ∀ row ∈ probs1,
      ∃ h : npArgmax row < row.length,
        row.get ⟨npArgmax row, h⟩ = npMax row ∧
        (∀ j (hj : j < row.length), row.get ⟨j, hj⟩ ≤ npMax row) ∧
        (∀ j (hj : j < npArgmax row),
            row.get ⟨j, Nat.lt_trans hj h⟩ < npMax row) ∧
        ((∀ x ∈ row, 0 ≤ x ∧ x ≤ 1) → 0 ≤ npMax row ∧ npMax row ≤ 1)) :=
  ⟨rfl, rfl, by simp [probs1],
   predict_and_run_select_argmax_and_max okWrapper testContext okModel
     batch1 probs1 rfl rfl (by simp [probs1])⟩

/-- C2: on every input batch of `N` rows for which `predict_proba`
returns an `N`-row matrix, `ModelWrapper.predict` returns a DataFrame
with exactly the columns `class` and `confidence`, each of length `N`. -/
theorem predict_output_shape
    (w : ModelWrapper) (context : PythonModelContext)
    (data predictions : List (List ℚ))
    (hw : w.model.predict_proba data = .ok predictions)
    (hN : predictions.length = data.length) :
    ∃ df : DataFrame,
      (w.predict context data).1 = .ok df ∧
      df.columns = ["class", "confidence"] ∧
      df.nrows = data.length ∧
      ∀ c ∈ df.cols, c.2.length = data.length := by
  refine ⟨⟨[("class", (predictions.map npArgmax).map (fun n : ℕ => (n : ℚ))),
           ("confidence", predictions.map npMax)]⟩,
    by simp [ModelWrapper.predict, hw], rfl, ?_, ?_⟩
  · show ((predictions.map npArgmax).map (fun n : ℕ => (n : ℚ))).length =
      data.length
    rw [List.length_map, List.length_map]
    exact hN
  · intro c hc
    rcases List.mem_cons.1 hc with rfl | hc
    · show ((predictions.map npArgmax).map (fun n : ℕ => (n : ℚ))).length =
        data.length
      rw [List.length_map, List.length_map]
      exact hN
    · rcases List.mem_singleton.1 hc with rfl
      show (predictions.map npMax).length = data.length
      rw [List.length_map]
      exact hN

/-- Witness for C2 at the concrete fixture. -/
theorem predict_output_shape_witness :
    (okWrapper.model.predict_proba batch1 = .ok probs1) ∧
    (probs1.length = batch1.length) ∧
    (∃ df : DataFrame,
      (okWrapper.predict testContext batch1).1 = .ok df ∧
      df.columns = ["class", "confidence"] ∧
      df.nrows = batch1.length ∧
      ∀ c ∈ df.cols, c.2.length = batch1.length) :=
  ⟨rfl, rfl,
   predict_output_shape okWrapper testContext batch1 probs1 rfl rfl⟩

/-- C3: `ModelWrapper.predict` mutates no instance state (the wrapper
after the call equals the wrapper before it) and a second invocation on
identical input, from the post-call state, yields the identical result. -/
theorem predict_stateless_deterministic
    (w : ModelWrapper) (context : PythonModelContext)
    (data : List (List ℚ)) :
    (w.predict context data).2 = w ∧
    ((w.predict context data).2).predict context data =
      w.predict context data := by
  cases h : w.model.predict_proba data <;>
    simp [ModelWrapper.predict, h]

/-- Witness for C3 at the concrete fixture. -/
theorem predict_stateless_deterministic_witness :
    (okWrapper.predict testContext batch1).2 = okWrapper ∧
    ((okWrapper.predict testContext batch1).2).predict testContext batch1 =
      okWrapper.predict testContext batch1 :=
  predict_stateless_deterministic okWrapper testContext batch1

/-- C4: the compute-provisioning cell creates and submits the documented
`AmlCompute` configuration exactly when `ml_client.compute.get` raises
(any exception), and reuses the retrieved cluster with no creation call
when the lookup succeeds. -/
theorem provisionCompute_upsert
    (get : String → Except PyExc AmlCompute)
    (begin_create_or_update : AmlCompute → AmlCompute) :
    (∀ e, get cpu_compute_target = .error e →
        provisionCompute get begin_create_or_update =
          (begin_create_or_update newCpuCluster, [newCpuCluster])) ∧
    (∀ c, get cpu_compute_target = .ok c →
        provisionCompute get begin_create_or_update = (c, [])) ∧
    newCpuCluster.name = "cpu-cluster" ∧
    newCpuCluster.size = "STANDARD_DS3_V2" ∧
    newCpuCluster.min_instances = 0 ∧
    newCpuCluster.max_instances = 4 ∧
    newCpuCluster.idle_time_before_scale_down = 180 ∧
    newCpuCluster.tier = "Dedicated" := by
  refine ⟨fun e he => ?_, fun c hc => ?_, rfl, rfl, rfl, rfl, rfl, rfl⟩
  · simp [provisionCompute, he]
  · simp [provisionCompute, hc]

/-- Witness for C4: a failing lookup triggers creation of the documented
configuration; a successful lookup reuses the cluster and creates
nothing. -/
theorem provisionCompute_upsert_witness :
    ((fun _ => Except.error (PyExc.other "ResourceNotFoundError"
        "cpu-cluster") : String → Except PyExc AmlCompute)
        cpu_compute_target =
      .error (.other "ResourceNotFoundError" "cpu-cluster")) ∧
    provisionCompute
      (fun _ => .error (.other "ResourceNotFoundError" "cpu-cluster"))
      (fun c => c) = (newCpuCluster, [newCpuCluster]) ∧
    ((fun _ => Except.ok newCpuCluster :
        String → Except PyExc AmlCompute) cpu_compute_target =
      .ok newCpuCluster) ∧
    provisionCompute (fun _ => .ok newCpuCluster) (fun c => c) =
      (newCpuCluster, []) :=
  ⟨rfl,
   (provisionCompute_upsert _ (fun c => c)).1 _ rfl,
   rfl,
   (provisionCompute_upsert _ (fun c => c)).2.1 _ rfl⟩

/-- C5 counterexample: the claim says `run` re-raises every exception of
the underlying probability computation, but `run` catches `RuntimeError`
and returns a substitute string: on a model whose `predict_proba` raises
`RuntimeError("boom")`, `run` does not propagate the exception — it
returns the formatted text instead. -/
theorem run_catches_runtimeError :
    run rtErrModel batch1 ≠ .error (.runtimeError "boom") ∧
    run rtErrModel batch1 =
      .ok (.text ("Input " ++ dataStr batch1 ++
        ". Exception was: " ++ "boom")) := by
  constructor
  · intro h
    simp [run, rtErrModel] at h
  · rfl

/-- C5 (amended): `ModelWrapper.predict` propagates every exception of
`predict_proba` unchanged; `run` propagates every exception except
`RuntimeError`, which it catches, returning the formatted message string
instead. -/
theorem predict_propagates_run_catches_runtimeError
    (w : ModelWrapper) (context : PythonModelContext)
    (MODEL : XGBClassifier) (data : List (List ℚ)) (e : PyExc)
    (hw : w.model.predict_proba data = .error e)
    (hM : MODEL.predict_proba data = .error e) :
    (w.predict context data).1 = .error e ∧
    (∀ name msg, e = .other name msg → run MODEL data = .error e) ∧
    (∀ msg, e = .runtimeError msg →
        run MODEL data = .ok (.text ("Input " ++ dataStr data ++
          ". Exception was: " ++ msg))) := by
  refine ⟨by simp [ModelWrapper.predict, hw], ?_, ?_⟩
  · rintro name msg rfl
    simp [run, hM]
  · rintro msg rfl
    simp [run, hM]

/-- Witness for the amended C5: a `KeyError` propagates out of both entry
points. -/
theorem predict_propagates_run_catches_runtimeError_witness :
    (ModelWrapper.mk keyErrModel).model.predict_proba batch1 =
      .error (.other "KeyError" "age") ∧
    keyErrModel.predict_proba batch1 = .error (.other "KeyError" "age") ∧
    (((ModelWrapper.mk keyErrModel).predict testContext batch1).1 =
        .error (.other "KeyError" "age") ∧
      run keyErrModel batch1 = .error (.other "KeyError" "age")) :=
  ⟨rfl, rfl,
   ⟨(predict_propagates_run_catches_runtimeError
      (ModelWrapper.mk keyErrModel) testContext keyErrModel batch1
      (.other "KeyError" "age") rfl rfl).1,
    (predict_propagates_run_catches_runtimeError
      (ModelWrapper.mk keyErrModel) testContext keyErrModel batch1
      (.other "KeyError" "age") rfl rfl).2.1 "KeyError" "age" rfl⟩⟩

/-- C6: `main.py` declares exactly the options `--data`,
`--test_train_ratio`, `--n_estimators`, `--learning_rate` and
`--registered_model_name`; the three hyperparameters are optional with
defaults 0.25, 100 and 0.1; an invocation supplying only `--data` and
`--registered_model_name` parses successfully with those defaults, and
any undeclared flag is rejected. -/
theorem parse_args_options_and_defaults :
    mainArgSpecs.map ArgSpec.flag =
      ["--data", "--test_train_ratio", "--n_estimators", "--learning_rate",
       "--registered_model_name"] ∧
    (testTrainRatioSpec.required = false ∧
      testTrainRatioSpec.default = .vfloat (1/4) ∧
      testTrainRatioSpec.type = .float) ∧
    (nEstimatorsSpec.required = false ∧
      nEstimatorsSpec.default = .vint 100 ∧ nEstimatorsSpec.type = .int) ∧
    (learningRateSpec.required = false ∧
      learningRateSpec.default = .vfloat (1/10) ∧
      learningRateSpec.type = .float) ∧
    (∀ d m, parse_args [("--data", d), ("--registered_model_name", m)] =
      .ok ⟨.vstr d, .vfloat (1/4), .vint 100, .vfloat (1/10), .vstr m⟩) ∧
    (∀ flag v rest, (∀ s ∈ mainArgSpecs, s.flag ≠ flag) →
      parse_args ((flag, v) :: rest) = .error "unrecognized arguments") := by
  refine ⟨rfl, ⟨rfl, rfl, rfl⟩, ⟨rfl, rfl, rfl⟩, ⟨rfl, rfl, rfl⟩,
    fun d m => rfl, ?_⟩
  intro flag v rest h
  have hany : mainArgSpecs.any (fun s => s.flag == flag) = false := by
    rw [List.any_eq_false]
    intro s hs
    simp [h s hs]
  simp [parse_args, List.all_cons, hany]

/-- Witness for C6: the minimal invocation parses to the defaults, and an
undeclared `--foo` is rejected. -/
theorem parse_args_options_and_defaults_witness :
    parse_args [("--data", "credit.xls"),
                ("--registered_model_name", "credit_defaults_model")] =
      .ok ⟨.vstr "credit.xls", .vfloat (1/4), .vint 100, .vfloat (1/10),
           .vstr "credit_defaults_model"⟩ ∧
    (∀ s ∈ mainArgSpecs, s.flag ≠ "--foo") ∧
    parse_args [("--foo", "1")] = .error "unrecognized arguments" :=
  ⟨(parse_args_options_and_defaults).2.2.2.2.1 "credit.xls"
      "credit_defaults_model",
   by decide,
   (parse_args_options_and_defaults).2.2.2.2.2 "--foo" "1" []
      (by decide)⟩

theorem mapM_pyInt_ok :
    ∀ (models : List MlModel),
      (∀ m ∈ models, ∃ v : Int, pyInt m.version = some v) →
      models.mapM (fun m =>
          match pyInt m.version with
          | some v => Except.ok v
          | none => Except.error (PyExc.other "ValueError" m.version)) =
        .ok (models.map (fun m => (pyInt m.version).getD 0))
  | [], _ => rfl
  | m :: ms, h => by
      obtain ⟨v, hv⟩ := h m (List.mem_cons_self m ms)
      have ih := mapM_pyInt_ok ms
        (fun m' hm' => h m' (List.mem_cons_of_mem m hm'))
      simp only [List.mapM_cons, List.map_cons, hv, ih]
      rfl

/-- C7: whenever the registry lists a non-empty collection of models, all
named `credit_defaults_model` and with integer-parsing versions, the
selected `latest_model_version` is the maximum of those versions as
integers, and the model fetched and bound to the blue deployment carries
exactly that name and that highest version. -/
theorem pickDeploymentModel_selects_latest (models : List MlModel)
    (hne : models ≠ [])
    (hname : ∀ m ∈ models, m.name = registered_model_name)
    (hver : ∀ m ∈ models, ∃ v : Int, pyInt m.version = some v) :
    ∃ (V : Int) (m : MlModel),
      latest_model_version models = .ok V ∧
      (∀ m' ∈ models, ∀ v, pyInt m'.version = some v → v ≤ V) ∧
      (∃ m' ∈ models, pyInt m'.version = some V) ∧
      pickDeploymentModel models = .ok m ∧
      m ∈ models ∧
      m.name = registered_model_name ∧
      pyInt m.version = some V ∧
      ∀ ep, (blue_deployment ep m).model = m := by
  match models, hne with
  | m0 :: ms, _ =>
    have hmapM := mapM_pyInt_ok (m0 :: ms) hver
    set v0 : Int := (pyInt m0.version).getD 0 with hv0
    set vrest : List Int := ms.map (fun m => (pyInt m.version).getD 0)
      with hvrest
    set V : Int := vrest.foldl max v0 with hV
    have hlatest : latest_model_version (m0 :: ms) = .ok V := by
      simp only [latest_model_version, hmapM, List.map_cons]
    have hub : ∀ m' ∈ m0 :: ms, ∀ v, pyInt m'.version = some v → v ≤ V := by
      intro m' hm' v hv
      have hVle : V ≤ V := le_refl V
      rw [hV] at hVle
      rcases (foldl_max_le_iff vrest v0 V).1 hVle with ⟨h0, hrest⟩
      have hgd : (pyInt m'.version).getD 0 = v := by rw [hv]; rfl
      rcases List.mem_cons.1 hm' with rfl | hm'
      · rw [← hgd]; exact h0
      · exact hrest _ (hgd ▸ List.mem_map_of_mem _ hm')
    have hattained : ∃ m' ∈ m0 :: ms, pyInt m'.version = some V := by
      rcases foldl_max_mem vrest v0 with hEq | hMem
      · refine ⟨m0, List.mem_cons_self m0 ms, ?_⟩
        obtain ⟨v, hv⟩ := hver m0 (List.mem_cons_self m0 ms)
        rw [hv]
        rw [hV, hEq, hv0, hv]
        rfl
      · rw [hvrest] at hMem
        obtain ⟨m', hm', hveq⟩ := List.mem_map.1 hMem
        refine ⟨m', List.mem_cons_of_mem m0 hm', ?_⟩
        obtain ⟨v, hv⟩ := hver m' (List.mem_cons_of_mem m0 hm')
        rw [hv]
        rw [hv] at hveq
        simp only [Option.getD_some] at hveq
        rw [← hV] at hveq
        rw [hveq]
    obtain ⟨mAtt, hmAtt, hAttV⟩ := hattained
    have hpAtt : (mAtt.name == registered_model_name &&
        pyInt mAtt.version == some V) = true := by
      rw [Bool.and_eq_true, beq_iff_eq, beq_iff_eq]
      exact ⟨hname mAtt hmAtt, hAttV⟩
    cases hfind : (m0 :: ms).find? (fun m =>
        m.name == registered_model_name && pyInt m.version == some V) with
    | none =>
        exact absurd hpAtt (by
          simpa using List.find?_eq_none.1 hfind mAtt hmAtt)
    | some m =>
        have hpm := List.find?_some hfind
        have hmem := List.mem_of_find?_eq_some hfind
        rw [Bool.and_eq_true, beq_iff_eq, beq_iff_eq] at hpm
        refine ⟨V, m, hlatest, hub, ⟨mAtt, hmAtt, hAttV⟩, ?_, hmem,
          hpm.1, hpm.2, fun ep => rfl⟩
        have hstep : pickDeploymentModel (m0 :: ms) =
            models_get (m0 :: ms) registered_model_name V := by
          simp only [pickDeploymentModel, hlatest]
          rfl
        rw [hstep]
        simp only [models_get, hfind]

/-- A three-entry registry fixture with versions 1, 3, 2. -/
def models3 : List MlModel :=
  [⟨"credit_defaults_model", "1"⟩, ⟨"credit_defaults_model", "3"⟩,
   ⟨"credit_defaults_model", "2"⟩]

theorem models3_versions_parse :
    ∀ m ∈ models3, ∃ v : Int, pyInt m.version = some v := by
  intro m hm
  simp only [models3, List.mem_cons, List.not_mem_nil, or_false] at hm
  rcases hm with rfl | rfl | rfl
  · exact ⟨1, by simp [pyInt, digitsVal]⟩
  · exact ⟨3, by simp [pyInt, digitsVal]⟩
  · exact ⟨2, by simp [pyInt, digitsVal]⟩

/-- Witness for C7 on the three-entry registry fixture. -/
theorem pickDeploymentModel_selects_latest_witness :
    models3 ≠ [] ∧
    (∀ m ∈ models3, m.name = registered_model_name) ∧
    (∀ m ∈ models3, ∃ v : Int, pyInt m.version = some v) ∧
    ∃ (V : Int) (m : MlModel),
      latest_model_version models3 = .ok V ∧
      (∀ m' ∈ models3, ∀ v, pyInt m'.version = some v → v ≤ V) ∧
      (∃ m' ∈ models3, pyInt m'.version = some V) ∧
      pickDeploymentModel models3 = .ok m ∧
      m ∈ models3 ∧
      m.name = registered_model_name ∧
      pyInt m.version = some V ∧
      ∀ ep, (blue_deployment ep m).model = m :=
  ⟨by simp [models3], by decide, models3_versions_parse,
   pickDeploymentModel_selects_latest models3 (by simp [models3])
     (by decide) models3_versions_parse⟩

/-- C8: the `sample-request.json` payload is an object whose single
top-level key is `input_data`, holding `columns`, `index` and `data` (a
list of rows); the bankmarketing request is an object with top-level keys
`Inputs` (holding `data`) and `GlobalParameters` (holding
`method: predict`) — and the assembled bankmarketing string parses to
exactly that document on a concrete embedded array. -/
theorem request_payload_shapes :
    sampleRequest.keys = ["input_data"] ∧
    (∃ inner, sampleRequest.find "input_data" = some inner ∧
      inner.keys = ["columns", "index", "data"] ∧
      ∃ rows, inner.find "data" = some (.arr rows) ∧
        rows.length = 2 ∧ ∀ r ∈ rows, ∃ xs, r = .arr xs) ∧
    (∀ t, (bankRequest t).keys = ["Inputs", "GlobalParameters"] ∧
      (bankRequest t).find "Inputs" = some (.obj [("data", t)]) ∧
      (bankRequest t).find "GlobalParameters" =
        some (.obj [("method", .str "predict")])) ∧
    jsonParse (bankRequestString "[1, 2]") =
      some (bankRequest (.arr [.num 1, .num 2])) := by
  refine ⟨rfl, ⟨_, rfl, rfl, _, rfl, rfl, ?_⟩,
    fun t => ⟨rfl, rfl, rfl⟩, ?_⟩
  · intro r hr
    rcases List.mem_cons.1 hr with rfl | hr
    · exact ⟨_, rfl⟩
    · rcases List.mem_singleton.1 hr with rfl
      exact ⟨_, rfl⟩
  · simp [jsonParse, bankRequestString, bankRequest, parseVal,
      parseMembers, parseElems, skipWs, parseStrChars, parseNum, pyFloat,
      digitsVal, List.splitOn, List.splitOnP, List.splitOnP.go]

/-- Witness for C8 at a concrete embedded test frame. -/
theorem request_payload_shapes_witness :
    (bankRequest (.arr [])).keys = ["Inputs", "GlobalParameters"] ∧
    (bankRequest (.arr [])).find "Inputs" =
      some (.obj [("data", .arr [])]) ∧
    (bankRequest (.arr [])).find "GlobalParameters" =
      some (.obj [("method", .str "predict")]) :=
  request_payload_shapes.2.2.1 (.arr [])

/-- C9: on every batch where `predict_proba` succeeds (with non-empty
rows), the legacy `run` and `ModelWrapper.predict` compute the same
`class` and `confidence` lists, `run` packaging them in the serialised
JSON document and `predict` as DataFrame columns. -/
theorem run_refines_predict
    (MODEL : XGBClassifier) (w : ModelWrapper)
    (context : PythonModelContext) (data predictions : List (List ℚ))
    (hM : MODEL.predict_proba data = .ok predictions)
    (hw : w.model.predict_proba data = .ok predictions)
    (hne : ∀ row ∈ predictions, row ≠ []) :
    ∃ (classes : List ℕ) (confidence : List ℚ),
      run MODEL data = .ok (.jsonOf (.obj
        [("class", .arr (classes.map (fun n : ℕ => Json.num (n : ℚ)))),
         ("confidence", .arr (confidence.map .num))])) ∧
      (w.predict context data).1 = .ok
        ⟨[("class", classes.map (fun n : ℕ => (n : ℚ))),
          ("confidence", confidence)]⟩ :=
  ⟨predictions.map npArgmax, predictions.map npMax,
   by simp [run, hM], by simp [ModelWrapper.predict, hw]⟩

/-- Witness for C9 at the concrete fixture. -/
theorem run_refines_predict_witness :
    (okModel.predict_proba batch1 = .ok probs1) ∧
    (okWrapper.model.predict_proba batch1 = .ok probs1) ∧
    (∀ row ∈ probs1, row ≠ []) ∧
    ∃ (classes : List ℕ) (confidence : List ℚ),
      run okModel batch1 = .ok (.jsonOf (.obj
        [("class", .arr (classes.map (fun n : ℕ => Json.num (n : ℚ)))),
         ("confidence", .arr (confidence.map .num))])) ∧
      (okWrapper.predict testContext batch1).1 = .ok
        ⟨[("class", classes.map (fun n : ℕ => (n : ℚ))),
          ("confidence", confidence)]⟩ :=
  ⟨rfl, rfl, by simp [probs1],
   run_refines_predict okModel okWrapper testContext batch1 probs1
     rfl rfl (by simp [probs1])⟩

/-- C10: the submitted command job passes only `--data`,
`--test_train_ratio`, `--learning_rate` and `--registered_model_name`
(never `--n_estimators`), so the training script parses the job's command
line with `n_estimators` equal to its declared default of 100. -/
theorem job_command_omits_n_estimators :
    "--n_estimators" ∉ jobCommandArgv ∧
    toFlagPairs (jobCommandArgv.drop 2) =
      [("--data", creditDataUrl), ("--test_train_ratio", "0.2"),
       ("--learning_rate", "0.25"),
       ("--registered_model_name", registered_model_name)] ∧
    parse_args (toFlagPairs (jobCommandArgv.drop 2)) =
      .ok ⟨.vstr creditDataUrl, .vfloat (1/5), .vint 100, .vfloat (1/4),
           .vstr registered_model_name⟩ ∧
    (⟨.vstr creditDataUrl, .vfloat (1/5), .vint 100, .vfloat (1/4),
      .vstr registered_model_name⟩ : Args).n_estimators =
      nEstimatorsSpec.default := by
  refine ⟨by decide, rfl, ?_, rfl⟩
  simp [parse_args, mainArgSpecs, dataSpec, testTrainRatioSpec,
    nEstimatorsSpec, learningRateSpec, registeredModelNameSpec,
    resolveArg, convertArg, pyFloat, pyInt, digitsVal, List.splitOn,
    List.splitOnP, List.splitOnP.go, jobCommandArgv, toFlagPairs,
    creditDataUrl, registered_model_name, List.lookup]
  norm_num
  rfl

end AzuremlExamples
